import Mathlib

/-!
Verification of the metadata translation and dependency mapping logic of
py2deb, a converter from Python source distributions to Debian binary
packages.

The definitions below are a shallow embedding of the corresponding Python
functions in `src/py2deb/package.py` and `src/py2deb/backends/stdeb_backend.py`.
Filesystem interaction is abstracted by passing the relevant directory
listings / file contents as explicit arguments; functions living in modules
outside the provided sources (the converter's `transform_name` /
`transform_version`, `deb_pkg_tools.control.merge_control_fields`, ...) are
taken as explicit function parameters, so that the theorems hold for every
choice of those collaborators.
-/

namespace Py2deb

/-- A single version specifier of a Python requirement: a
(constraint operator, version) pair, e.g. `("==", "1.0")`.
Mirrors the elements of `pkg_resources.Requirement.specs`. -/
structure Spec where
  constraint : String
  version : String
deriving DecidableEq, Repr

/-- A Python requirement as consumed by
`PackageToConvert.debian_dependencies`: a project name, the requested
extras and a list of version specifiers. -/
structure Requirement where
  project_name : String
  extras : List String
  specs : List Spec
deriving DecidableEq, Repr

/-- Translation of one (constraint, version) pair into a Debian package
relationship, embedding the body of the `for constraint, version in
requirement.specs` loop of `PackageToConvert.debian_dependencies`
(`src/py2deb/package.py` lines 307-331). The `version` argument is the
already transformed version (the result of `converter.transform_version`).
An unsupported constraint raises, embedded here as `Except.error`. -/
def processSpec (debian_package_name python_name constraint version : String) :
    Except String String :=
  if version = "dev" then
    -- Requirements like 'pytz > dev' fall back to a dependency without a
    -- version specification so the dependency is not dropped.
    .ok debian_package_name
  else if constraint = "==" then
    .ok (debian_package_name ++ " (= " ++ version ++ ")")
  else if constraint = "!=" then
    .ok (debian_package_name ++ " (<< " ++ version ++ ") | " ++
         debian_package_name ++ " (>> " ++ version ++ ")")
  else if constraint = "<" then
    .ok (debian_package_name ++ " (<< " ++ version ++ ")")
  else if constraint = ">" then
    .ok (debian_package_name ++ " (>> " ++ version ++ ")")
  else if constraint = "<=" ∨ constraint = ">=" then
    .ok (debian_package_name ++ " (" ++ constraint ++ " " ++ version ++ ")")
  else
    .error ("Conversion specifier not supported! (" ++ constraint ++
            " used by Python package " ++ python_name ++ ")")

/-- Processing of the specifier list of one requirement: each specifier is
translated with `processSpec` after its version went through
`transform_version`; the first unsupported specifier aborts the
conversion. -/
def mapSpecs (debian_package_name python_name : String)
    (transform_version : String → String) : List Spec → Except String (List String)
  | [] => .ok []
  | s :: rest => do
    let d ← processSpec debian_package_name python_name s.constraint
      (transform_version s.version)
    let ds ← mapSpecs debian_package_name python_name transform_version rest
    pure (d :: ds)

/-- Dependencies contributed by a single requirement
(`src/py2deb/package.py` lines 304-333): a requirement without version
specifiers contributes the bare transformed name, otherwise each specifier
is translated. -/
def requirement_dependencies (transform_name : String → List String → String)
    (transform_version : String → String → String) (python_name : String)
    (r : Requirement) : Except String (List String) :=
  let debian_package_name := transform_name r.project_name r.extras
  if r.specs.isEmpty then
    .ok [debian_package_name]
  else
    mapSpecs debian_package_name python_name
      (transform_version r.project_name) r.specs

/-- Accumulation over all requirements, in order; the first failing
requirement aborts the whole computation (a raised exception in Python). -/
def mapRequirements (transform_name : String → List String → String)
    (transform_version : String → String → String) (python_name : String) :
    List Requirement → Except String (List String)
  | [] => .ok []
  | r :: rest => do
    let ds ← requirement_dependencies transform_name transform_version python_name r
    let rest' ← mapRequirements transform_name transform_version python_name rest
    pure (ds ++ rest')

/-- The lexicographic code-point order on strings, the order used by
Python's `sorted` on `str`, stated over the character lists. -/
def lexLe (a b : String) : Prop :=
  a.data ≤ b.data

instance : DecidableRel lexLe :=
  fun a b => inferInstanceAs (Decidable (a.data ≤ b.data))

instance : IsTotal String lexLe :=
  ⟨fun a b => le_total a.data b.data⟩

instance : IsTrans String lexLe :=
  ⟨fun _ _ _ => le_trans⟩

/-- `PackageToConvert.debian_dependencies` (`src/py2deb/package.py`
lines 288-336): the contributed relationship strings are collected into a
Python `set` and returned as `sorted(dependencies)`; the set plus `sorted`
is embedded as deduplication followed by a sort under the lexicographic
string order. -/
def debian_dependencies (transform_name : String → List String → String)
    (transform_version : String → String → String) (python_name : String)
    (reqs : List Requirement) : Except String (List String) := do
  let dependencies ← mapRequirements transform_name transform_version python_name reqs
  pure (List.insertionSort lexLe dependencies.dedup)

end Py2deb

namespace Py2deb

/-- C1: for every constraint whose (transformed) version is not the `dev`
marker, the translation follows the spec's operator table, and any operator
outside the supported set is a fatal unsupported-specifier error. -/
theorem C1_operator_table (debian_package_name python_name op v : String)
    (hv : v ≠ "dev") :
    (op = "==" → processSpec debian_package_name python_name op v =
      .ok (debian_package_name ++ " (= " ++ v ++ ")")) ∧
    (op = "!=" → processSpec debian_package_name python_name op v =
      .ok (debian_package_name ++ " (<< " ++ v ++ ") | " ++
           debian_package_name ++ " (>> " ++ v ++ ")")) ∧
    (op = "<" → processSpec debian_package_name python_name op v =
      .ok (debian_package_name ++ " (<< " ++ v ++ ")")) ∧
    (op = ">" → processSpec debian_package_name python_name op v =
      .ok (debian_package_name ++ " (>> " ++ v ++ ")")) ∧
    (op = "<=" → processSpec debian_package_name python_name op v =
      .ok (debian_package_name ++ " (<= " ++ v ++ ")")) ∧
    (op = ">=" → processSpec debian_package_name python_name op v =
      .ok (debian_package_name ++ " (>= " ++ v ++ ")")) ∧
    (op ∉ (["==", "!=", "<", ">", "<=", ">="] : List String) →
      processSpec debian_package_name python_name op v =
        .error ("Conversion specifier not supported! (" ++ op ++
                " used by Python package " ++ python_name ++ ")")) := by
  refine ⟨?_, ?_, ?_, ?_, ?_, ?_, ?_⟩ <;> intro h
  · subst h; simp [processSpec, hv]
  · subst h; simp [processSpec, hv]
  · subst h; simp [processSpec, hv]
  · subst h; simp [processSpec, hv]
  · subst h
    simp [processSpec, hv]
    simp only [String.append_assoc]
    rfl
  · subst h
    simp [processSpec, hv]
    simp only [String.append_assoc]
    rfl
  · simp only [List.mem_cons, List.not_mem_nil, or_false, not_or] at h
    obtain ⟨h1, h2, h3, h4, h5, h6⟩ := h
    simp [processSpec, hv, h1, h2, h3, h4, h5, h6]

/-- Witness for C1 at a concrete input. -/
theorem C1_operator_table_witness :
    processSpec "python-foo" "foo" "==" "1.0" = .ok "python-foo (= 1.0)" := by
  have h := (C1_operator_table "python-foo" "foo" "==" "1.0" (by decide)).1 rfl
  simpa using h

/-- C10: the `dev` marker check happens before operator dispatch: whatever
the constraint operator is (supported or not), a constraint whose
transformed version is the literal `dev` yields the bare package name and
never the unsupported-specifier error. -/
theorem C10_dev_checked_before_dispatch (debian_package_name python_name op : String) :
    processSpec debian_package_name python_name op "dev" =
      .ok debian_package_name := by
  simp [processSpec]

/-- C2: a requirement whose only constraint normalizes to the `dev` marker
contributes an unconstrained dependency on the transformed name instead of
failing, and a requirement without version specifiers contributes the bare
transformed name. -/
theorem C2_no_real_constraint (transform_name : String → List String → String)
    (transform_version : String → String → String) (python_name : String)
    (r : Requirement) (s : Spec) :
    (r.specs = [] →
      requirement_dependencies transform_name transform_version python_name r =
        .ok [transform_name r.project_name r.extras]) ∧
    (r.specs = [s] → transform_version r.project_name s.version = "dev" →
      requirement_dependencies transform_name transform_version python_name r =
        .ok [transform_name r.project_name r.extras]) := by
  constructor
  · intro h
    simp [requirement_dependencies, h]
  · intro h hdev
    simp [requirement_dependencies, h, mapSpecs, processSpec, hdev]
    rfl

/-- Witness for C2 at a concrete input (the `pytz > dev` requirement of
celery 3.1.16 mentioned in the source). -/
theorem C2_no_real_constraint_witness :
    requirement_dependencies (fun n _ => "python-" ++ n) (fun _ v => v) "celery"
      ⟨"pytz", [], [⟨">", "dev"⟩]⟩ = .ok ["python-pytz"] := by
  have h := (C2_no_real_constraint (fun n _ => "python-" ++ n) (fun _ v => v)
    "celery" ⟨"pytz", [], [⟨">", "dev"⟩]⟩ ⟨">", "dev"⟩).2 rfl rfl
  simpa using h

/-- `PackageToConvert.find_egg_info_file` (`src/py2deb/package.py` lines
667-689), with the result of the glob passed in as an explicit list of
matched pathnames. More than one match raises (the error text abbreviates
the external `humanfriendly.concatenate` formatting of the match list),
exactly one match is returned, and zero matches fall through to the
implicit `return None`. -/
def find_egg_info_file (project_name version : String) (ms : List String) :
    Except String (Option String) :=
  if ms.length > 1 then
    .error ("Source distribution directory of " ++ project_name ++ " (" ++ version ++
            ") contains multiple *.egg-info directories: " ++
            String.intercalate ", " ms)
  else
    match ms with
    | m :: _ => .ok (some m)
    | [] => .ok none

/-- C3 counterexample: with zero matching metadata directories
`find_egg_info_file` does not fail; it returns the absent value. -/
theorem C3_counterexample :
    find_egg_info_file "foo" "1.0" [] = .ok none := rfl

/-- C3 (amended): locating the metadata directory fails only when two or
more directories match; exactly one match is returned, and zero matches
yield the absent value (`None`) without an error. -/
theorem C3_egg_info_amended (project_name version : String) (ms : List String) :
    (2 ≤ ms.length →
      ∃ msg, find_egg_info_file project_name version ms = .error msg) ∧
    (∀ m, ms = [m] →
      find_egg_info_file project_name version ms = .ok (some m)) ∧
    (ms = [] →
      find_egg_info_file project_name version ms = .ok none) := by
  refine ⟨?_, ?_, ?_⟩
  · intro h
    have hgt : ms.length > 1 := h
    refine ⟨"Source distribution directory of " ++ project_name ++ " (" ++ version ++
      ") contains multiple *.egg-info directories: " ++
      String.intercalate ", " ms, ?_⟩
    unfold find_egg_info_file
    rw [if_pos hgt]
  · intro m h
    subst h
    rfl
  · intro h
    subst h
    rfl

/-- Witness for the amended C3: two matches fail, one match is returned. -/
theorem C3_egg_info_amended_witness :
    (∃ msg, find_egg_info_file "foo" "1.0" ["a.egg-info", "b.egg-info"] = .error msg) ∧
    find_egg_info_file "foo" "1.0" ["a.egg-info"] = .ok (some "a.egg-info") :=
  ⟨(C3_egg_info_amended "foo" "1.0" ["a.egg-info", "b.egg-info"]).1 (by decide),
   (C3_egg_info_amended "foo" "1.0" ["a.egg-info"]).2.1 "a.egg-info" rfl⟩

/-- Python truthiness of an optional string field of the package metadata:
`None` and the empty string are falsy. -/
def truthy (o : Option String) : Bool :=
  !(o.getD "").isEmpty

/-- Python `str.strip('<>')`: remove all leading and trailing `<` and `>`
characters. -/
def stripAngles (s : String) : String :=
  String.mk (((s.data.dropWhile fun c => c == '<' || c == '>').reverse.dropWhile
    fun c => c == '<' || c == '>').reverse)

/-- `PackageToConvert.debian_maintainer` (`src/py2deb/package.py` lines
122-138): when the maintainer name is falsy both name and e-mail fall back
to the author fields; a truthy name/e-mail pair is rendered as
`Name <email>`, otherwise the result is the name when truthy, else
`"Unknown"`. -/
def debian_maintainer (maintainer maintainer_email author author_email :
    Option String) : String :=
  let m := if truthy maintainer then maintainer else author
  let me := if truthy maintainer then maintainer_email else author_email
  if truthy m && truthy me then
    (m.getD "") ++ " <" ++ stripAngles (me.getD "") ++ ">"
  else if truthy m then
    m.getD ""
  else
    "Unknown"

/-- C5 counterexample: a truthy maintainer name without any e-mail address
yields the bare name, not the `"Unknown"` default the claim predicts for an
incomplete name/e-mail pair. -/
theorem C5_counterexample :
    debian_maintainer (some "Alice") none (some "Bob") (some "bob@example.com") =
      "Alice" ∧ ("Alice" : String) ≠ "Unknown" := by
  exact ⟨rfl, by decide⟩

/-- C5 (amended): the maintainer string falls back from maintainer to
author when the maintainer name is falsy; a truthy name/e-mail pair gives
`Name <email>` (with angle brackets stripped from the e-mail); a truthy
name without e-mail gives the name alone; and `"Unknown"` results only
when no truthy name is available at all. -/
theorem C5_maintainer_amended (mn me an ae : Option String) :
    (truthy mn = false →
      debian_maintainer mn me an ae = debian_maintainer an ae an ae) ∧
    (truthy mn = true → truthy me = true →
      debian_maintainer mn me an ae =
        (mn.getD "") ++ " <" ++ stripAngles (me.getD "") ++ ">") ∧
    (truthy mn = true → truthy me = false →
      debian_maintainer mn me an ae = mn.getD "") ∧
    (truthy mn = false → truthy an = false →
      debian_maintainer mn me an ae = "Unknown") := by
  refine ⟨?_, ?_, ?_, ?_⟩
  · intro h
    simp [debian_maintainer, h]
  · intro h1 h2
    simp [debian_maintainer, h1, h2]
  · intro h1 h2
    simp [debian_maintainer, h1, h2]
  · intro h1 h2
    simp [debian_maintainer, h1, h2]

/-- Witness for the amended C5: maintainer name and a bracketed e-mail. -/
theorem C5_maintainer_amended_witness :
    debian_maintainer (some "Alice") (some "<alice@example.com>") none none =
      "Alice <alice@example.com>" := by
  have h := (C5_maintainer_amended (some "Alice") (some "<alice@example.com>")
    none none).2.1 rfl rfl
  rw [h]
  rfl

/-- Python `str.endswith`, written out over the character lists so that it
evaluates by reduction. -/
def endswith (s suffix : String) : Bool :=
  List.isSuffixOf suffix.data s.data

/-- `PackageToConvert.find_shared_object_files` (`src/py2deb/package.py`
lines 513-531) restricted to its selection logic: of the filenames in the
directory tree, those ending in `.so` are collected (the `strip` run on
each is an external side effect). -/
def find_shared_object_files (filenames : List String) : List String :=
  filenames.filter (fun f => endswith f ".so")

/-- `PackageToConvert.determine_package_architecture`
(`src/py2deb/package.py` lines 567-588). -/
def determine_package_architecture (debian_architecture : String)
    (has_shared_object_files : Bool) : String :=
  if has_shared_object_files then debian_architecture else "all"

/-- The wiring in `PackageToConvert.convert` (`src/py2deb/package.py`
lines 398-406): the architecture is determined from the truthiness of the
list of found shared object files. -/
def convert_architecture (debian_architecture : String)
    (filenames : List String) : String :=
  determine_package_architecture debian_architecture
    (!(find_shared_object_files filenames).isEmpty)

/-- C9: a package without `.so` files is tagged `all`; a package with at
least one `.so` file is tagged with the configured target Debian
architecture. -/
theorem C9_architecture (debian_architecture : String) (filenames : List String) :
    ((∀ f ∈ filenames, endswith f ".so" = false) →
      convert_architecture debian_architecture filenames = "all") ∧
    ((∃ f ∈ filenames, endswith f ".so" = true) →
      convert_architecture debian_architecture filenames = debian_architecture) := by
  constructor
  · intro h
    have hnil : find_shared_object_files filenames = [] := by
      refine List.filter_eq_nil_iff.mpr ?_
      intro a ha
      simp [h a ha]
    simp [convert_architecture, determine_package_architecture, hnil]
  · intro h
    obtain ⟨f, hf, hso⟩ := h
    have hmem : f ∈ find_shared_object_files filenames := by
      simp [find_shared_object_files, List.mem_filter, hf, hso]
    have hE : (find_shared_object_files filenames).isEmpty = false := by
      cases hfind : find_shared_object_files filenames with
      | nil => rw [hfind] at hmem; cases hmem
      | cons a t => rfl
    simp [convert_architecture, determine_package_architecture, hE]

/-- One step of splitting a character list on `'.'`: a dot starts a new
component, any other character is prepended to the current one. -/
def splitDotAux (c : Char) (acc : List (List Char)) : List (List Char) :=
  match acc with
  | [] => []
  | h :: t => if c = '.' then [] :: h :: t else (c :: h) :: t

/-- Python `str.split('.')`, written out over the character list so that it
evaluates by reduction (e.g. `"a.b"` gives `["a", "b"]`). -/
def splitDot (s : String) : List String :=
  (s.data.foldr splitDotAux [[]]).map String.mk

/-- The relation "not longer than" on namespace tuples, the key order of
Python's `sorted(namespaces, key=len)`. -/
def shorter (a b : List String) : Prop :=
  a.length ≤ b.length

instance : DecidableRel shorter :=
  fun a b => Nat.decLe a.length b.length

instance : IsTotal (List String) shorter :=
  ⟨fun a b => Nat.le_total a.length b.length⟩

instance : IsTrans (List String) shorter :=
  ⟨fun _ _ _ => Nat.le_trans⟩

/-- The inner loop of `PackageToConvert.namespaces` for one dotted name
(`src/py2deb/package.py` lines 222-226): `dotted_name` grows by one
component per iteration and every stage is added to the set, so one dotted
name contributes exactly the nonempty initial segments of its component
list. -/
def expand_namespace (dotted_name : String) : List (List String) :=
  let comps := splitDot dotted_name
  (List.range comps.length).map (fun k => comps.take (k + 1))

/-- `PackageToConvert.namespaces` (`src/py2deb/package.py` lines 194-227):
the tuples produced for all declared namespace packages are collected into
a set (a Python `set`, embedded as deduplication in first-insertion order)
and returned as `sorted(namespaces, key=len)`; insertion sort keeps the
embedding's deterministic order between tuples of equal length, where the
Python set leaves it unspecified. -/
def namespaces (namespace_packages : List String) : List (List String) :=
  List.insertionSort shorter
    ((namespace_packages.foldl (fun acc n => acc ++ expand_namespace n) []).dedup)

/-- Membership in the namespace accumulation loop. -/
theorem mem_namespaces_foldl {l : List String} {acc : List (List String)} {x : List String}
    (hx : x ∈ l.foldl (fun acc n => acc ++ expand_namespace n) acc) :
    x ∈ acc ∨ ∃ n ∈ l, x ∈ expand_namespace n := by
  induction l generalizing acc with
  | nil => exact Or.inl hx
  | cons a t ih =>
    rcases ih hx with h | ⟨n, hn, hexp⟩
    · rcases List.mem_append.mp h with h' | h'
      · exact Or.inl h'
      · exact Or.inr ⟨a, List.mem_cons_self a t, h'⟩
    · exact Or.inr ⟨n, List.mem_cons_of_mem a hn, hexp⟩

/-- The converse: everything contributed by some declared name ends up in
the accumulated list. -/
theorem mem_namespaces_foldl_of_mem {l : List String} {acc : List (List String)} {x : List String}
    (hx : x ∈ acc ∨ ∃ n ∈ l, x ∈ expand_namespace n) :
    x ∈ l.foldl (fun acc n => acc ++ expand_namespace n) acc := by
  induction l generalizing acc with
  | nil =>
    rcases hx with h | ⟨n, hn, _⟩
    · exact h
    · exact absurd hn (List.not_mem_nil n)
  | cons a t ih =>
    rcases hx with h | ⟨n, hn, hexp⟩
    · exact ih (Or.inl (List.mem_append.mpr (Or.inl h)))
    · rcases List.mem_cons.mp hn with rfl | hn'
      · exact ih (Or.inl (List.mem_append.mpr (Or.inr hexp)))
      · exact ih (Or.inr ⟨n, hn', hexp⟩)

/-- The result of `namespaces` holds exactly the nonempty initial segments
of the declared dotted names. -/
theorem mem_namespaces {dn : List String} {x : List String} :
    x ∈ namespaces dn ↔ ∃ n ∈ dn, x ∈ expand_namespace n := by
  unfold namespaces
  rw [List.mem_insertionSort, List.mem_dedup]
  constructor
  · intro h
    rcases mem_namespaces_foldl h with h' | h'
    · exact absurd h' (List.not_mem_nil x)
    · exact h'
  · intro h
    exact mem_namespaces_foldl_of_mem (Or.inr h)

/-- A nonempty proper initial segment of a contributed tuple is itself a
contributed tuple. -/
theorem expand_namespace_take {n : String} {t : List String}
    (ht : t ∈ expand_namespace n) {k : ℕ} (hk0 : 0 < k) (hkl : k < t.length) :
    t.take k ∈ expand_namespace n := by
  unfold expand_namespace at ht ⊢
  simp only [List.mem_map, List.mem_range] at ht ⊢
  obtain ⟨j, hj, rfl⟩ := ht
  have hlen : ((splitDot n).take (j + 1)).length = min (j + 1) (splitDot n).length :=
    List.length_take _ _
  rw [hlen] at hkl
  have hkj : k < j + 1 := lt_of_lt_of_le hkl (min_le_left _ _)
  have hkc : k < (splitDot n).length := lt_of_lt_of_le hkl (min_le_right _ _)
  refine ⟨k - 1, ?_, ?_⟩
  · omega
  · rw [List.take_take]
    have h1 : k ⊓ (j + 1) = k - 1 + 1 := by omega
    rw [h1]

/-- C6: the namespace expansion is sorted by increasing tuple length, its
underlying set is closed under nonempty initial segments (in particular
`(a,)` is present whenever `(a, b)` is), and the flat input
`["zope.app.cache"]` yields exactly
`[("zope",), ("zope", "app"), ("zope", "app", "cache")]`. -/
theorem C6_namespace_expansion (dn : List String) :
    List.Sorted shorter (namespaces dn) ∧
    (∀ t ∈ namespaces dn, ∀ k, 0 < k → k < t.length → t.take k ∈ namespaces dn) ∧
    namespaces ["zope.app.cache"] =
      [["zope"], ["zope", "app"], ["zope", "app", "cache"]] := by
  refine ⟨List.sorted_insertionSort _ _, ?_, ?_⟩
  · intro t ht k hk0 hkl
    rw [mem_namespaces] at ht ⊢
    obtain ⟨n, hn, hexp⟩ := ht
    exact ⟨n, hn, expand_namespace_take hexp hk0 hkl⟩
  · decide

/-- Witness for C6, instantiating the closure property: `("zope", "app")`
is in the expansion of `["zope.app.cache"]` and so is its initial segment
`("zope",)`. -/
theorem C6_namespace_expansion_witness :
    (["zope", "app"] : List String).take 1 ∈ namespaces ["zope.app.cache"] :=
  (C6_namespace_expansion ["zope.app.cache"]).2.1 ["zope", "app"]
    (by decide) 1 (by decide) (by decide)

/-- Witness for C9: a pure-Python package and a package with one shared
object file. -/
theorem C9_architecture_witness :
    convert_architecture "amd64" ["foo.py"] = "all" ∧
    convert_architecture "amd64" ["foo.py", "bar.so"] = "amd64" :=
  ⟨(C9_architecture "amd64" ["foo.py"]).1 (by decide),
   (C9_architecture "amd64" ["foo.py", "bar.so"]).2 ⟨"bar.so", by decide, by decide⟩⟩

/-- The control field overrides assembled by `patch_control`
(`src/py2deb/backends/stdeb_backend.py` lines 72-74): the prefixed package
name, the tagged description (computed by the external
`get_tagged_description`) and the comma-joined Debian dependencies. -/
def patch_control_overrides (debian_name tagged_description : String)
    (deb_dependencies : List String) : List (String × String) :=
  [("Package", debian_name), ("Description", tagged_description),
   ("Depends", String.intercalate ", " deb_dependencies)]

/-- `patch_control` (`src/py2deb/backends/stdeb_backend.py` lines 54-83)
over the parsed paragraph list of the control file: anything but exactly
two paragraphs raises `BackendFailed`; with exactly two, the first
(source) paragraph is written back unchanged and only the second (binary)
paragraph is merged with the overrides and the configuration patches.
`merge_control_fields` (deb_pkg_tools) and `patch_control_file`
(py2deb.util) are external collaborators passed as parameters. -/
def patch_control
    (merge_control_fields :
      List (String × String) → List (String × String) → List (String × String))
    (patch_control_file : List (String × String) → List (String × String))
    (package_name debian_name tagged_description : String)
    (deb_dependencies : List String)
    (paragraphs : List (List (String × String))) :
    Except String (List (List (String × String))) :=
  match paragraphs with
  | [p0, p1] =>
    .ok [p0, patch_control_file (merge_control_fields p1
      (patch_control_overrides debian_name tagged_description deb_dependencies))]
  | _ => .error ("Unexpected control file format for " ++ package_name ++ "!")

/-- C8: patching the generated control file fails fatally unless the file
holds exactly two paragraphs; with exactly two it succeeds and only the
second (binary package) paragraph is modified — the first is returned
untouched. -/
theorem C8_two_paragraphs
    (merge_control_fields :
      List (String × String) → List (String × String) → List (String × String))
    (patch_control_file : List (String × String) → List (String × String))
    (package_name debian_name tagged_description : String)
    (deb_dependencies : List String)
    (paragraphs : List (List (String × String))) :
    (paragraphs.length ≠ 2 →
      patch_control merge_control_fields patch_control_file package_name
        debian_name tagged_description deb_dependencies paragraphs =
      .error ("Unexpected control file format for " ++ package_name ++ "!")) ∧
    (∀ p0 p1, paragraphs = [p0, p1] →
      patch_control merge_control_fields patch_control_file package_name
        debian_name tagged_description deb_dependencies paragraphs =
      .ok [p0, patch_control_file (merge_control_fields p1
        (patch_control_overrides debian_name tagged_description
          deb_dependencies))]) := by
  constructor
  · intro h
    match paragraphs with
    | [] => rfl
    | [_] => rfl
    | [_, _] => exact absurd rfl h
    | _ :: _ :: _ :: _ => rfl
  · intro p0 p1 h
    subst h
    rfl

/-- Witness for C8: a concrete two-paragraph control file, patched with
concrete merge and patch collaborators. -/
theorem C8_two_paragraphs_witness :
    patch_control (fun p o => p ++ o) id "foo" "python-foo" "desc [py2deb]"
      ["python-bar (= 1.0)"] [[("Source", "foo")], [("Package", "foo")]] =
    .ok [[("Source", "foo")],
         [("Package", "foo"), ("Package", "python-foo"),
          ("Description", "desc [py2deb]"),
          ("Depends", "python-bar (= 1.0)")]] := by
  have h := (C8_two_paragraphs (fun p o => p ++ o) id "foo" "python-foo"
    "desc [py2deb]" ["python-bar (= 1.0)"]
    [[("Source", "foo")], [("Package", "foo")]]).2
    [("Source", "foo")] [("Package", "foo")] rfl
  rw [h]
  rfl

/-- Modelled from the spec: `package_names_match` lives in `py2deb.utils`,
which is not among the provided sources; per the spec, override sections
are "matched by normalized package name (case-insensitive,
underscore/dash-insensitive)". Normalization lowercases the name and
identifies underscores with dashes. -/
def normalize_package_name (s : String) : String :=
  String.mk (s.data.map (fun c => if c = '_' then '-' else c.toLower))

/-- Modelled from the spec: two package names match when their normalized
forms coincide. -/
def package_names_match (a b : String) : Bool :=
  normalize_package_name a == normalize_package_name b

/-- An INI-style override configuration (`stdeb.cfg`) as parsed by Python's
`RawConfigParser`: the `DEFAULT` values plus the regular sections, each a
list of key/value options. `RawConfigParser` never lists `DEFAULT` among
`sections()` and `has_section('DEFAULT')` is false, so a well-formed
configuration has no regular section named `DEFAULT`. -/
structure IniConfig where
  defaults : List (String × String)
  sections : List (String × List (String × String))

/-- Python `dict(parser.items(section))`: the `DEFAULT` values merged with
the section's own options, the section winning on a key collision. -/
def config_items (c : IniConfig) (pairs : List (String × String)) :
    List (String × String) :=
  c.defaults.filter (fun d => !(pairs.any (fun p => p.1 == d.1))) ++ pairs

/-- `PackageToConvert.load_control_field_overrides`
(`src/py2deb/package.py` lines 590-633) over the parsed configuration
(`none` embeds a missing `stdeb.cfg`): the section names to apply are
`DEFAULT` followed by every section whose name matches the normalized
Python package name; each section that actually exists is merged into the
control fields, in order. `merge_control_fields` (deb_pkg_tools) is an
external collaborator passed as a parameter. -/
def load_control_field_overrides
    (merge_control_fields :
      List (String × String) → List (String × String) → List (String × String))
    (python_name : String) (cfg : Option IniConfig)
    (control_fields : List (String × String)) : List (String × String) :=
  match cfg with
  | none => control_fields
  | some c =>
    let section_names := "DEFAULT" ::
      (c.sections.map Prod.fst).filter (fun s => package_names_match s python_name)
    section_names.foldl (fun fields name =>
      match c.sections.find? (fun p => p.1 == name) with
      | some p => merge_control_fields fields (config_items c p.2)
      | none => fields) control_fields

/-- C4 counterexample: a configuration with two sections whose normalized
names both match the package `foo_bar` is not rejected — both sections are
merged into the control fields (here with a concrete merge that appends
the override pairs). -/
theorem C4_counterexample :
    load_control_field_overrides (fun fields o => fields ++ o) "foo_bar"
      (some ⟨[], [("Foo_Bar", [("Depends", "bar")]),
                  ("foo-bar", [("Depends", "baz")])]⟩)
      [("Package", "python-foo-bar")] =
    [("Package", "python-foo-bar"), ("Depends", "bar"), ("Depends", "baz")] := by
  decide

/-- C4 (amended): when exactly two sections match the normalized package
name, the override step does not fail; it merges both matching sections
into the control fields in their configuration order, after the `DEFAULT`
pass (which, `DEFAULT` never being a regular section, merges nothing). -/
theorem C4_overrides_amended
    (merge_control_fields :
      List (String × String) → List (String × String) → List (String × String))
    (python_name : String) (c : IniConfig)
    (control_fields : List (String × String)) (n1 n2 : String)
    (i1 i2 : List (String × String))
    (hd : c.sections.find? (fun p => p.1 == "DEFAULT") = none)
    (hm : (c.sections.map Prod.fst).filter
      (fun s => package_names_match s python_name) = [n1, n2])
    (h1 : c.sections.find? (fun p => p.1 == n1) = some (n1, i1))
    (h2 : c.sections.find? (fun p => p.1 == n2) = some (n2, i2)) :
    load_control_field_overrides merge_control_fields python_name (some c)
        control_fields =
      merge_control_fields
        (merge_control_fields control_fields (config_items c i1))
        (config_items c i2) := by
  simp [load_control_field_overrides, hm, hd, h1, h2]

/-- Witness for the amended C4 at a concrete configuration with defaults
and two matching sections. -/
theorem C4_overrides_amended_witness :
    load_control_field_overrides (fun fields o => fields ++ o) "foo_bar"
      (some ⟨[("Maintainer", "M")],
             [("Foo_Bar", [("Depends", "bar")]),
              ("foo-bar", [("Depends", "baz")])]⟩)
      [("Package", "p")] =
    [("Package", "p"), ("Maintainer", "M"), ("Depends", "bar"),
     ("Maintainer", "M"), ("Depends", "baz")] := by
  have h := C4_overrides_amended (fun fields o => fields ++ o) "foo_bar"
    ⟨[("Maintainer", "M")],
     [("Foo_Bar", [("Depends", "bar")]), ("foo-bar", [("Depends", "baz")])]⟩
    [("Package", "p")] "Foo_Bar" "foo-bar" [("Depends", "bar")]
    [("Depends", "baz")] rfl (by decide) rfl rfl
  rw [h]
  rfl

/-- A requirement carrying exactly the single specifier `== v` (with `v`
not normalizing to the `dev` marker) contributes exactly the pinned
relationship. -/
theorem requirement_dependencies_eq_single
    (transform_name : String → List String → String)
    (transform_version : String → String → String) (python_name : String)
    (r : Requirement) (v : String) (hs : r.specs = [⟨"==", v⟩])
    (hdev : transform_version r.project_name v ≠ "dev") :
    requirement_dependencies transform_name transform_version python_name r =
      .ok [transform_name r.project_name r.extras ++ " (= " ++
           transform_version r.project_name v ++ ")"] := by
  simp [requirement_dependencies, hs, mapSpecs, processSpec, hdev]
  rfl

/-- When every requirement contributes exactly one relationship, the
accumulation over all requirements is their map. -/
theorem mapRequirements_eq_map (transform_name : String → List String → String)
    (transform_version : String → String → String) (python_name : String)
    (g : Requirement → String) (reqs : List Requirement)
    (h : ∀ r ∈ reqs, requirement_dependencies transform_name transform_version
      python_name r = .ok [g r]) :
    mapRequirements transform_name transform_version python_name reqs =
      .ok (reqs.map g) := by
  induction reqs with
  | nil => rfl
  | cons a t ih =>
    have ha := h a (List.mem_cons_self a t)
    have ht := ih (fun r hr => h r (List.mem_cons_of_mem a hr))
    simp only [mapRequirements, ha, ht, List.map_cons]
    rfl

/-- C7 counterexample: a requirement set using only the `==` operator for
which the resulting dependency set has two entries for the single distinct
project name `foo` (one per pinned version). -/
theorem C7_counterexample :
    debian_dependencies (fun n _ => n) (fun _ v => v) "pkg"
      [⟨"foo", [], [⟨"==", "1.0"⟩, ⟨"==", "2.0"⟩]⟩] =
      .ok ["foo (= 1.0)", "foo (= 2.0)"] := by
  rfl

/-- C7 (amended): for every requirement set in which each requirement
carries exactly one specifier, using `==`, whose transformed version is
not the `dev` marker, the resulting dependency collection is deduplicated,
sorted lexically, and holds exactly the strings `name (= version)` arising
from the requirements — one entry per distinct (transformed name,
transformed version) pair. -/
theorem C7_eq_constraints (transform_name : String → List String → String)
    (transform_version : String → String → String) (python_name : String)
    (reqs : List Requirement)
    (h : ∀ r ∈ reqs, ∃ v, r.specs = [⟨"==", v⟩] ∧
      transform_version r.project_name v ≠ "dev") :
    ∃ l, debian_dependencies transform_name transform_version python_name reqs =
        .ok l ∧
      List.Sorted lexLe l ∧ l.Nodup ∧
      (∀ x, x ∈ l ↔ ∃ r ∈ reqs, ∃ v, r.specs = [⟨"==", v⟩] ∧
        x = transform_name r.project_name r.extras ++ " (= " ++
            transform_version r.project_name v ++ ")") := by
  have hreq : ∀ r ∈ reqs,
      requirement_dependencies transform_name transform_version python_name r =
        .ok [transform_name r.project_name r.extras ++ " (= " ++
             transform_version r.project_name
               ((r.specs.headD ⟨"", ""⟩).version) ++ ")"] := by
    intro r hr
    obtain ⟨v, hs, hdev⟩ := h r hr
    have hv : (r.specs.headD ⟨"", ""⟩).version = v := by
      rw [hs]
      rfl
    rw [hv]
    exact requirement_dependencies_eq_single transform_name transform_version
      python_name r v hs hdev
  have hmap := mapRequirements_eq_map transform_name transform_version
    python_name _ reqs hreq
  refine ⟨List.insertionSort lexLe ((reqs.map (fun r =>
      transform_name r.project_name r.extras ++ " (= " ++
      transform_version r.project_name
        ((r.specs.headD ⟨"", ""⟩).version) ++ ")")).dedup), ?_, ?_, ?_, ?_⟩
  · simp only [debian_dependencies, hmap]
    rfl
  · exact List.sorted_insertionSort _ _
  · exact ((List.perm_insertionSort _ _).nodup_iff).mpr (List.nodup_dedup _)
  · intro x
    rw [List.mem_insertionSort, List.mem_dedup, List.mem_map]
    constructor
    · rintro ⟨r, hr, rfl⟩
      obtain ⟨v, hs, hdev⟩ := h r hr
      refine ⟨r, hr, v, hs, ?_⟩
      rw [hs]
      rfl
    · rintro ⟨r, hr, v, hs, rfl⟩
      refine ⟨r, hr, ?_⟩
      rw [hs]
      rfl

/-- Witness for the amended C7: two pinned requirements, given out of
lexicographic order, with a duplicate entry. -/
theorem C7_eq_constraints_witness :
    ∃ l, debian_dependencies (fun n _ => "python-" ++ n) (fun _ v => v) "pkg"
        [⟨"zope", [], [⟨"==", "2.0"⟩]⟩, ⟨"foo", [], [⟨"==", "1.0"⟩]⟩,
         ⟨"zope", [], [⟨"==", "2.0"⟩]⟩] = .ok l ∧
      List.Sorted lexLe l ∧ l.Nodup ∧
      (∀ x, x ∈ l ↔ ∃ r ∈ ([⟨"zope", [], [⟨"==", "2.0"⟩]⟩,
          ⟨"foo", [], [⟨"==", "1.0"⟩]⟩,
          ⟨"zope", [], [⟨"==", "2.0"⟩]⟩] : List Requirement),
        ∃ v, r.specs = [⟨"==", v⟩] ∧
        x = (fun n (_ : List String) => "python-" ++ n) r.project_name r.extras ++
          " (= " ++ (fun (_ : String) v => v) r.project_name v ++ ")") :=
  C7_eq_constraints (fun n _ => "python-" ++ n) (fun _ v => v) "pkg"
    [⟨"zope", [], [⟨"==", "2.0"⟩]⟩, ⟨"foo", [], [⟨"==", "1.0"⟩]⟩,
     ⟨"zope", [], [⟨"==", "2.0"⟩]⟩]
    (by intro r hr
        fin_cases hr
        · exact ⟨"2.0", rfl, by decide⟩
        · exact ⟨"1.0", rfl, by decide⟩
        · exact ⟨"2.0", rfl, by decide⟩)

end Py2deb
